import Mathlib

/-!
Verification of the jsonfsm JSON decoder (src/jsonfsm.py).

The source implements each grammar rule as a Python coroutine that is sent
one character at a time and yields either the sentinel NOT_PARSED_YET or a
(possibly provisional) decoded value.  Here every coroutine is embedded as
an explicit state machine: the state type enumerates the suspension points
(the yield expressions) of the coroutine, and the feed function maps one
state and one input character to the next state together with the value
yielded in response, or to the exception the coroutine raises.  A yield of
NOT_PARSED_YET is modelled as Option.none, a yield of a value v as some v;
the Python idiom x is NOT_PARSED_YET is faithfully a none test, since the
sentinel is a fresh object never equal (by identity) to a decoded value.
-/

namespace Jsonfsm

/-- Decoded Python values produced by the parser.  Python strings are
sequences of code points, modelled as List Nat (a lone surrogate produced
by unichr is representable, which Char would forbid).  JSON numbers are
produced by float(); we model the exact decimal value as a rational.
Python dicts are modelled as association lists with last-write-wins update;
Python 2 dict equality ignores order, so key order in theorems below is
just the deterministic order our update function produces. -/
inductive PyVal : Type
  | none : PyVal
  | bool (b : Bool) : PyVal
  | num (q : ℚ) : PyVal
  | str (s : List Nat) : PyVal
  | list (xs : List PyVal) : PyVal
  | dict (kvs : List (List Nat × PyVal)) : PyVal

/-- Exceptions the Python code can raise while decoding: its own
JSONParseError (src/jsonfsm.py:63), ValueError raised by int(.., 16) or
unichr, StopIteration from sending to an exhausted generator, and
UnboundLocalError from reading a local variable before assignment. -/
inductive PyErr : Type
  | jsonParseError (msg : String) : PyErr
  | valueError : PyErr
  | stopIteration : PyErr
  | unboundLocalError (var : String) : PyErr

/-- Model of c.isspace() restricted to the ASCII whitespace characters
(the inputs in the claims contain no other whitespace). -/
def pyIsSpace (c : Char) : Bool :=
  c == ' ' || c == '\t' || c == '\n' || c == '\r' || c == '\x0b' || c == '\x0c'

/-- Model of c.isdigit() restricted to the ASCII range.  Python 2
unicode.isdigit is also true of non-ASCII digit characters (for example
the Arabic-Indic digits, which float() then converts, or superscripts,
on which float() raises a ValueError subclass); those characters are
outside this model, so every theorem below either uses this predicate as
a positive hypothesis (narrowing its own domain) or restricts its
quantifier to code points below 128, where the two functions agree
exactly. -/
def pyIsDigit (c : Char) : Bool :=
  decide ('0' ≤ c ∧ c ≤ '9')

/-- Model of c.lower() on ASCII letters; the source only compares the
result with the letter e. -/
def pyLower (c : Char) : Char :=
  if 'A' ≤ c ∧ c ≤ 'Z' then Char.ofNat (c.toNat + 32) else c

/-- Python strip(): remove leading and trailing whitespace. -/
def pyStrip (s : List Char) : List Char :=
  ((s.dropWhile pyIsSpace).reverse.dropWhile pyIsSpace).reverse

/-- Value of one hexadecimal digit, none for a non-hex character. -/
def hexDigitVal (c : Char) : Option Nat :=
  if '0' ≤ c ∧ c ≤ '9' then some (c.toNat - 48)
  else if 'a' ≤ c ∧ c ≤ 'f' then some (c.toNat - 87)
  else if 'A' ≤ c ∧ c ≤ 'F' then some (c.toNat - 55)
  else none

/-- Value of a nonempty all-hex digit sequence, none otherwise. -/
def hexDigitsVal (ds : List Char) : Option Nat :=
  if ds.isEmpty then Option.none
  else ds.foldl
    (fun acc c =>
      match acc, hexDigitVal c with
      | some a, some d => some (a * 16 + d)
      | _, _ => Option.none)
    (some 0)

/-- Magnitude part of a Python base-16 integer literal: an optional 0x or
0X prefix followed by at least one hex digit. -/
def pyInt16Mag : List Char → Option Nat
  | '0' :: 'x' :: rest => hexDigitsVal rest
  | '0' :: 'X' :: rest => hexDigitsVal rest
  | ds => hexDigitsVal ds

/-- Model of the Python 2 builtin int(s, 16): surrounding whitespace is
ignored, an optional sign and an optional 0x prefix are accepted before
the hex digits; none models the ValueError on any other input. -/
def pyInt16 (s : List Char) : Option Int :=
  let t := ((s.dropWhile pyIsSpace).reverse.dropWhile pyIsSpace).reverse
  match t with
  | '+' :: rest => (pyInt16Mag rest).map Int.ofNat
  | '-' :: rest => (pyInt16Mag rest).map (fun n => -(n : Int))
  | rest => (pyInt16Mag rest).map Int.ofNat

/-- Model of the Python 2 builtin unichr on a wide build: a code point for
arguments in 0..0x10FFFF, none (ValueError) otherwise. -/
def pyUnichr (n : Int) : Option Nat :=
  if 0 ≤ n ∧ n ≤ 0x10FFFF then some n.toNat else Option.none

/-- Numeric value of a (possibly empty) ASCII digit sequence. -/
def digitsToNat (ds : List Char) : Nat :=
  ds.foldl (fun a c => a * 10 + (c.toNat - 48)) 0

/-- Model of build_number (src/jsonfsm.py:129): float of the joined digit
buffer.  The buffers the number machine builds always have the shape
sign? digits (dot digits*)? ((e or E) sign? digits*)?; we return their
exact decimal value as a rational (the concrete numbers appearing in the
theorems below are exactly representable as doubles, so the IEEE rounding
performed by the Python float type is invisible to them). -/
def buildNumber (ds : List Char) : ℚ :=
  let signAndRest : Int × List Char :=
    match ds with
    | '-' :: r => (-1, r)
    | r => (1, r)
  let mant := signAndRest.2.takeWhile (fun c => ¬ (c = 'e' ∨ c = 'E'))
  let erest := signAndRest.2.dropWhile (fun c => ¬ (c = 'e' ∨ c = 'E'))
  let ex : Int :=
    match erest with
    | _ :: '-' :: r => -(digitsToNat r : Int)
    | _ :: r => (digitsToNat r : Int)
    | [] => 0
  let ip := mant.takeWhile (fun c => c ≠ '.')
  let fp := (mant.dropWhile (fun c => c ≠ '.')).drop 1
  let mantNum : Int := signAndRest.1 * (digitsToNat ip * 10 ^ fp.length + digitsToNat fp)
  if 0 ≤ ex then mkRat (mantNum * 10 ^ ex.toNat) (10 ^ fp.length)
  else mkRat mantNum (10 ^ fp.length * 10 ^ (-ex).toNat)

/-- States of string_fsm (src/jsonfsm.py:73), one per yield site: start is
the initial suspension expecting the opening quote, body is the yield at
the top of the main loop, escape is the yield after a backslash, unicode
is inside the four-iteration loop collecting hexval, and finished is the
final yield after which any send raises StopIteration. -/
inductive StrState : Type
  | start : StrState
  | body (value : List Nat) : StrState
  | escape (value : List Nat) : StrState
  | unicode (value : List Nat) (hexval : List Char) : StrState
  | finished : StrState

/-- One send to string_fsm: next state plus the yielded result (none is
NOT_PARSED_YET, some s is the completed string). -/
def strFeed : StrState → Char → Except PyErr (StrState × Option (List Nat))
  | .start, c =>
      if c = '"' then .ok (.body [], Option.none)
      else .error (.jsonParseError "JSON strings must start with a quote")
  | .body v, c =>
      if c = '"' then .ok (.finished, some v)
      else if c = '\\' then .ok (.escape v, Option.none)
      else .ok (.body (v ++ [c.toNat]), Option.none)
  | .escape v, c =>
      -- the source (lines 97-107) has no else branch for escapes other
      -- than u: the escape character is consumed and silently dropped
      if c = 'u' then .ok (.unicode v [], Option.none)
      else .ok (.body v, Option.none)
  | .unicode v h, c =>
      let h' := h ++ [c]
      if h'.length < 4 then .ok (.unicode v h', Option.none)
      else
        match (pyInt16 h').bind pyUnichr with
        | some u => .ok (.body (v ++ [u]), Option.none)
        | Option.none => .error .valueError
  | .finished, _ => .error .stopIteration

/-- States of number_fsm (src/jsonfsm.py:112), one per yield site: start
expects the first character, afterMinus the character after a leading
minus, intLoop is the yield inside the nonzero integer-part loop,
afterZero the yield 0 after a bare zero integer part, fracLoop the yields
after the decimal point, expSign the yield right after e or E, expFirst
the yield after an exponent minus, expLoop the yield inside the exponent
digit loop, and finished the final yield. -/
inductive NumState : Type
  | start : NumState
  | afterMinus : NumState
  | intLoop (digits : List Char) : NumState
  | afterZero (digits : List Char) : NumState
  | fracLoop (digits : List Char) : NumState
  | expSign (digits : List Char) : NumState
  | expFirst (digits : List Char) : NumState
  | expLoop (digits : List Char) : NumState
  | finished : NumState

/-- Lines 181-186 of the source: the character after the exponent sign
must be a digit, which starts the exponent digit loop. -/
def numExpFirst (ds : List Char) (c : Char) :
    Except PyErr (NumState × Option ℚ) :=
  if pyIsDigit c then
    .ok (.expLoop (ds ++ [c]), some (buildNumber (ds ++ [c])))
  else .error (.jsonParseError ("Unexpected character in number: " ++ c.toString))

/-- Lines 173-189 of the source: after the integer or fractional part,
only e or E may continue the number. -/
def numAfterFrac (ds : List Char) (c : Char) :
    Except PyErr (NumState × Option ℚ) :=
  if pyLower c = 'e' then .ok (.expSign (ds ++ [c]), Option.none)
  else .error (.jsonParseError ("Unexpected character in number: " ++ c.toString))

/-- Lines 155-189 of the source: the character after the integer part.  A
digit here is only reachable after a bare zero and is rejected (the
leading-zero rule); a dot starts the fractional part. -/
def numAfterInt (ds : List Char) (c : Char) :
    Except PyErr (NumState × Option ℚ) :=
  if pyIsDigit c then
    .error (.jsonParseError ("Unexpected digit: " ++ c.toString))
  else if c = '.' then .ok (.fracLoop (ds ++ [c]), Option.none)
  else numAfterFrac ds c

/-- Lines 141-153 of the source: the first character of the integer part
must be a digit; a nonzero digit enters the integer loop yielding the
provisional value, a zero yields the int literal 0 and moves past the
integer part. -/
def numIntStart (ds : List Char) (c : Char) :
    Except PyErr (NumState × Option ℚ) :=
  if ¬ pyIsDigit c then
    .error (.jsonParseError ("Unexpected leading nondigit: " ++ c.toString))
  else if c ≠ '0' then
    .ok (.intLoop (ds ++ [c]), some (buildNumber (ds ++ [c])))
  else
    -- the source yields the int 0 here (line 153), not a float; Python
    -- compares 0 == 0.0 as equal and our value domain identifies them
    .ok (.afterZero (ds ++ [c]), some 0)

/-- One send to number_fsm: next state plus the yielded result (none is
NOT_PARSED_YET, some q a provisional or final value). -/
def numFeed : NumState → Char → Except PyErr (NumState × Option ℚ)
  | .start, c =>
      if c = '-' then .ok (.afterMinus, Option.none)
      else numIntStart [] c
  | .afterMinus, c => numIntStart ['-'] c
  | .intLoop ds, c =>
      if pyIsDigit c then
        .ok (.intLoop (ds ++ [c]), some (buildNumber (ds ++ [c])))
      else numAfterInt ds c
  | .afterZero ds, c => numAfterInt ds c
  | .fracLoop ds, c =>
      if pyIsDigit c then
        .ok (.fracLoop (ds ++ [c]), some (buildNumber (ds ++ [c])))
      else if pyLower c = 'e' then .ok (.expSign (ds ++ [c]), Option.none)
      else .error (.jsonParseError ("Unexpected character in number: " ++ c.toString))
  | .expSign ds, c =>
      if c = '-' then .ok (.expFirst (ds ++ [c]), Option.none)
      else numExpFirst ds c
  | .expFirst ds, c => numExpFirst ds c
  | .expLoop ds, c =>
      if pyIsDigit c then
        .ok (.expLoop (ds ++ [c]), some (buildNumber (ds ++ [c])))
      else .ok (.finished, some (buildNumber ds))
  | .finished, _ => .error .stopIteration

/-- States of string_matcher_fsm (src/jsonfsm.py:295): matching holds the
still unmatched suffix of the literal (always nonempty) and the value to
produce; finished is the final yield. -/
inductive LitState : Type
  | matching (remaining : List Char) (retval : PyVal) : LitState
  | finished : LitState

/-- One send to string_matcher_fsm: a mismatch raises a bare
JSONParseError (line 304, no message); consuming the last literal
character yields the result value. -/
def litFeed : LitState → Char → Except PyErr (LitState × Option PyVal)
  | .matching rem retval, c =>
      match rem with
      | [] => .error .stopIteration   -- unreachable: matching is only built with a nonempty suffix
      | m :: rest =>
          if c = m then
            if rest = [] then .ok (.finished, some retval)
            else .ok (.matching rest retval, Option.none)
          else .error (.jsonParseError "")
  | .finished, _ => .error .stopIteration

/-- Python dict assignment obj[key] = v on an association list: replace
the existing binding or append a new one. -/
def dictSet (d : List (List Nat × PyVal)) (k : List Nat) (v : PyVal) :
    List (List Nat × PyVal) :=
  if d.any (fun kv => kv.1 = k) then
    d.map (fun kv => if kv.1 = k then (k, v) else kv)
  else d ++ [(k, v)]

mutual

/-- States of array_fsm (src/jsonfsm.py:194): expectOpen awaits the
opening bracket, elemFirst is the yield at the top of the element loop
(also covering its whitespace-skipping loop), inElem is the yield inside
the inner value loop holding the child value machine and the latest value
it yielded, finished is the final yield of the completed list. -/
inductive ArrState : Type
  | expectOpen : ArrState
  | elemFirst (acc : List PyVal) : ArrState
  | inElem (acc : List PyVal) (vp : ValState) (value : Option PyVal) : ArrState
  | finished : ArrState

/-- States of object_fsm (src/jsonfsm.py:232).  The lastValue field
models the function-local Python variable value, which is unbound (none)
until the first value machine yields and otherwise keeps its binding
(some y) across members; the source never resets it, which is observable
below. -/
inductive ObjState : Type
  | expectOpen : ObjState
  | keyFirst (obj : List (List Nat × PyVal)) (lastValue : Option (Option PyVal)) : ObjState
  | inKey (obj : List (List Nat × PyVal)) (lastValue : Option (Option PyVal))
      (sp : StrState) : ObjState
  | afterKey (obj : List (List Nat × PyVal)) (lastValue : Option (Option PyVal))
      (key : List Nat) : ObjState
  | afterColon (obj : List (List Nat × PyVal)) (lastValue : Option (Option PyVal))
      (key : List Nat) : ObjState
  | inVal (obj : List (List Nat × PyVal)) (key : List Nat) (value : Option PyVal)
      (vp : ValState) : ObjState
  | finished : ObjState

/-- States of value_fsm (src/jsonfsm.py:287): start is the initial
suspension before the dispatch on the first character, running holds the
surviving sub-machine to which every later character is forwarded. -/
inductive ValState : Type
  | start : ValState
  | running (m : Machine) : ValState

/-- The grammar alternatives a value machine can be running. -/
inductive Machine : Type
  | numM (s : NumState) : Machine
  | objM (s : ObjState) : Machine
  | arrM (s : ArrState) : Machine
  | strM (s : StrState) : Machine
  | litM (s : LitState) : Machine

end

/-- First send to array_fsm (lines 207-212): the character must be the
opening bracket. -/
def arrOpen (c : Char) : Except PyErr (ArrState × Option PyVal) :=
  if c = '[' then .ok (.elemFirst [], Option.none)
  else .error (.jsonParseError "Arrays must begin with [")

/-- First send to object_fsm (lines 245-250): the character must be the
opening brace. -/
def objOpen (c : Char) : Except PyErr (ObjState × Option PyVal) :=
  if c = '\x7b' then .ok (.keyFirst [] Option.none, Option.none)
  else .error (.jsonParseError "Objects must begin with \x7b")

/-- The number alternative of the dispatch, wrapped into the common
machine and value types. -/
def tryNum (c : Char) : Except PyErr (Machine × Option PyVal) :=
  (numFeed .start c).map (fun p => (Machine.numM p.1, p.2.map PyVal.num))

/-- The object alternative of the dispatch. -/
def tryObj (c : Char) : Except PyErr (Machine × Option PyVal) :=
  (objOpen c).map (fun p => (Machine.objM p.1, p.2))

/-- The array alternative of the dispatch. -/
def tryArr (c : Char) : Except PyErr (Machine × Option PyVal) :=
  (arrOpen c).map (fun p => (Machine.arrM p.1, p.2))

/-- The string alternative of the dispatch. -/
def tryStr (c : Char) : Except PyErr (Machine × Option PyVal) :=
  (strFeed .start c).map (fun p => (Machine.strM p.1, p.2.map PyVal.str))

/-- One literal alternative of the dispatch. -/
def tryLit (lit : List Char) (v : PyVal) (c : Char) :
    Except PyErr (Machine × Option PyVal) :=
  (litFeed (.matching lit v) c).map (fun p => (Machine.litM p.1, p.2))

/-- The except JSONParseError handler of the dispatch loop (lines
322-328): a JSONParseError moves on to the next alternative, any other
outcome (success or a different exception) is final. -/
def jpeOr (a : Except PyErr (Machine × Option PyVal))
    (b : Unit → Except PyErr (Machine × Option PyVal)) :
    Except PyErr (Machine × Option PyVal) :=
  match a with
  | .error (.jsonParseError _) => b ()
  | r => r

/-- The dispatch of value_fsm on its first character (lines 310-330): the
alternatives are tried in the order number, object, array, string, null,
false, true; the first one that does not raise JSONParseError becomes the
survivor and its yielded value is forwarded; if all raise, the value
machine raises JSONParseError itself. -/
def tryFirst (c : Char) : Except PyErr (Machine × Option PyVal) :=
  jpeOr (tryNum c) fun _ =>
  jpeOr (tryObj c) fun _ =>
  jpeOr (tryArr c) fun _ =>
  jpeOr (tryStr c) fun _ =>
  jpeOr (tryLit "null".data PyVal.none c) fun _ =>
  jpeOr (tryLit "false".data (PyVal.bool false) c) fun _ =>
  jpeOr (tryLit "true".data (PyVal.bool true) c) fun _ =>
  .error (.jsonParseError "Failed to parse JSON value")

/-- First send to a fresh value machine. -/
def valStart (c : Char) : Except PyErr (ValState × Option PyVal) :=
  match tryFirst c with
  | .ok (m, y) => .ok (.running m, y)
  | .error e => .error e

mutual

/-- One send to array_fsm after the opening bracket.  The inner loop of
the source (lines 220-226) keeps the condition: it runs the child value
machine while the character is not a delimiter comma or bracket or the
child has produced no value yet; once a delimiter arrives with a value in
hand the element is appended and, on a closing bracket, the list is
yielded. -/
def arrFeed : ArrState → Char → Except PyErr (ArrState × Option PyVal)
  | .expectOpen, c =>
      if c = '[' then .ok (.elemFirst [], Option.none)
      else .error (.jsonParseError "Arrays must begin with [")
  | .elemFirst acc, c =>
      if pyIsSpace c then .ok (.elemFirst acc, Option.none)
      else
        -- a fresh value machine with value = NOT_PARSED_YET: the inner
        -- loop condition holds, so the character is sent to the child
        match valStart c with
        | .ok (vp, y) => .ok (.inElem acc vp y, Option.none)
        | .error e => .error e
  | .inElem acc vp value, c =>
      if value.isSome && pyIsSpace c then .ok (.inElem acc vp value, Option.none)
      else if c = ',' ∨ c = ']' then
        match value with
        | some v =>
            if c = ']' then .ok (.finished, some (.list (acc ++ [v])))
            else .ok (.elemFirst (acc ++ [v]), Option.none)
        | Option.none =>
            match valFeed vp c with
            | .ok (vp', y) => .ok (.inElem acc vp' y, Option.none)
            | .error e => .error e
      else
        match valFeed vp c with
        | .ok (vp', y) => .ok (.inElem acc vp' y, Option.none)
        | .error e => .error e
  | .finished, _ => .error .stopIteration

/-- One send to object_fsm after the opening brace.  Keys are parsed by a
fresh string machine, the colon is checked after whitespace, and the
inner value loop mirrors the array one except that the Python variable
value is read by the loop condition before ever being assigned in this
member: unbound on the first member it raises UnboundLocalError, and on
later members it still holds the previous member value, so a delimiter
right after the colon ends the member using that stale value. -/
def objFeed : ObjState → Char → Except PyErr (ObjState × Option PyVal)
  | .expectOpen, c =>
      if c = '\x7b' then .ok (.keyFirst [] Option.none, Option.none)
      else .error (.jsonParseError "Objects must begin with \x7b")
  | .keyFirst obj lv, c =>
      if pyIsSpace c then .ok (.keyFirst obj lv, Option.none)
      else
        match strFeed .start c with
        | .ok (sp', Option.none) => .ok (.inKey obj lv sp', Option.none)
        | .ok (_, some k) => .ok (.afterKey obj lv k, Option.none)
        | .error e => .error e
  | .inKey obj lv sp, c =>
      match strFeed sp c with
      | .ok (sp', Option.none) => .ok (.inKey obj lv sp', Option.none)
      | .ok (_, some k) => .ok (.afterKey obj lv k, Option.none)
      | .error e => .error e
  | .afterKey obj lv key, c =>
      if pyIsSpace c then .ok (.afterKey obj lv key, Option.none)
      else if c = ':' then .ok (.afterColon obj lv key, Option.none)
      else .error (.jsonParseError "Missing : between attribute name and value")
  | .afterColon obj lv key, c =>
      if pyIsSpace c then .ok (.afterColon obj lv key, Option.none)
      else if c = ',' ∨ c = '\x7d' then
        match lv with
        | Option.none => .error (.unboundLocalError "value")
        | some Option.none =>
            match valStart c with
            | .ok (vp', y) => .ok (.inVal obj key y vp', Option.none)
            | .error e => .error e
        | some (some v) =>
            let obj' := dictSet obj key v
            if c = '\x7d' then .ok (.finished, some (.dict obj'))
            else .ok (.keyFirst obj' (some (some v)), Option.none)
      else
        match valStart c with
        | .ok (vp', y) => .ok (.inVal obj key y vp', Option.none)
        | .error e => .error e
  | .inVal obj key value vp, c =>
      if value.isSome && pyIsSpace c then .ok (.inVal obj key value vp, Option.none)
      else if c = ',' ∨ c = '\x7d' then
        match value with
        | some v =>
            let obj' := dictSet obj key v
            if c = '\x7d' then .ok (.finished, some (.dict obj'))
            else .ok (.keyFirst obj' (some (some v)), Option.none)
        | Option.none =>
            match valFeed vp c with
            | .ok (vp', y) => .ok (.inVal obj key y vp', Option.none)
            | .error e => .error e
      else
        match valFeed vp c with
        | .ok (vp', y) => .ok (.inVal obj key y vp', Option.none)
        | .error e => .error e
  | .finished, _ => .error .stopIteration

/-- One send to a running sub-machine, with its yields converted into the
common value domain. -/
def machFeed : Machine → Char → Except PyErr (Machine × Option PyVal)
  | .numM s, c =>
      match numFeed s c with
      | .ok (s', y) => .ok (.numM s', y.map PyVal.num)
      | .error e => .error e
  | .objM s, c =>
      match objFeed s c with
      | .ok (s', y) => .ok (.objM s', y)
      | .error e => .error e
  | .arrM s, c =>
      match arrFeed s c with
      | .ok (s', y) => .ok (.arrM s', y)
      | .error e => .error e
  | .strM s, c =>
      match strFeed s c with
      | .ok (s', y) => .ok (.strM s', y.map PyVal.str)
      | .error e => .error e
  | .litM s, c =>
      match litFeed s c with
      | .ok (s', y) => .ok (.litM s', y)
      | .error e => .error e

/-- One send to value_fsm: the first character runs the dispatch, every
later character is forwarded to the survivor and its outcome is returned
as the value machine outcome (lines 321-333). -/
def valFeed : ValState → Char → Except PyErr (ValState × Option PyVal)
  | .start, c => valStart c
  | .running m, c =>
      match machFeed m c with
      | .ok (m', y) => .ok (.running m', y)
      | .error e => .error e

end

/-- The loop of loads (src/jsonfsm.py:342-348): feed each character to
the value machine remembering the last yielded result.  The second
argument models the Python local ret: none while the loop body has never
run (reading it then raises UnboundLocalError), some none when the last
yield was NOT_PARSED_YET (then loads raises JSONParseError), some (some
v) when the last yield was the value v (then loads returns it). -/
def loadsGo : ValState → Option (Option PyVal) → List Char → Except PyErr PyVal
  | _, ret, [] =>
      match ret with
      | Option.none => .error (.unboundLocalError "ret")
      | some Option.none => .error (.jsonParseError "Failed to parse JSON value")
      | some (some v) => .ok v
  | st, _, c :: cs =>
      match valFeed st c with
      | .error e => .error e
      | .ok (st', y) => loadsGo st' (some y) cs

/-- loads (src/jsonfsm.py:335): strip the input, feed every remaining
character to one fresh value machine, and return the last yielded result
(the byte-to-unicode decoding step is outside the model: the input is
already a sequence of code points). -/
def loads (input : List Char) : Except PyErr PyVal :=
  loadsGo .start Option.none (pyStrip input)

/-- Code points of a Lean string, for stating concrete inputs. -/
def codes (s : String) : List Char :=
  s.data

/-- Code point numbers of a Lean string, for stating decoded strings. -/
def codesN (s : String) : List Nat :=
  s.data.map Char.toNat

end Jsonfsm

namespace Jsonfsm

/-- The set of first characters some dispatch alternative accepts, per the
grammar: minus or a digit starts a number, brace an object, bracket an
array, quote a string, and n, f, t the literals. -/
def firstCharAccepted (c : Char) : Prop :=
  c = '-' ∨ pyIsDigit c = true ∨ c = '\x7b' ∨ c = '[' ∨ c = '"' ∨
    c = 'n' ∨ c = 'f' ∨ c = 't'

theorem nullData : "null".data = ['n', 'u', 'l', 'l'] := rfl

theorem falseData : "false".data = ['f', 'a', 'l', 's', 'e'] := rfl

theorem trueData : "true".data = ['t', 'r', 'u', 'e'] := rfl

/-- C1: divergence of loads from a reference JSON decoder on valid JSON
texts.  The four-character text quote backslash n quote is the JSON
encoding of the one-character newline string, but loads returns the empty
string because the escape handler drops every escape except the unicode
one; and on the empty-array text loads raises JSONParseError even though
the repository test suite expects the empty list. -/
theorem c1_reference_divergence :
    loads (codes "\"\\n\"") = .ok (.str [])
    ∧ loads (codes "[]") = .error (.jsonParseError "Failed to parse JSON value") :=
  ⟨rfl, rfl⟩

/-- C2: the escape state neither appends the escaped character of a
standard two-character escape nor rejects a nonstandard one.  Decoding
the text quote backslash k quote returns the empty string instead of
raising, and the tab escape inside quote a backslash t b quote is
silently dropped, giving the two-character string ab. -/
theorem c2_escapes_dropped_not_rejected :
    loads (codes "\"\\k\"") = .ok (.str [])
    ∧ loads (codes "\"a\\tb\"") = .ok (.str (codesN "ab")) :=
  ⟨rfl, rfl⟩

/-- C3: a failure other than JSONParseError escapes to the caller: on the
object text with key key and a missing value, the object machine reads
its local variable value before any assignment, raising
UnboundLocalError. -/
theorem c3_unbound_local_escapes :
    loads (codes "\x7b\"key\":\x7d") = .error (.unboundLocalError "value") :=
  rfl

/-- C4: on an object text whose second member has no value between the
colon and the closing brace, loads returns an object built from the stale
value variable of the previous member instead of failing: keys a and b
both end bound to the first member value 1. -/
theorem c4_stale_value_returns_object :
    loads (codes "\x7b\"a\":1,\"b\":\x7d") =
      .ok (.dict [(codesN "a", .num 1), (codesN "b", .num 1)]) :=
  rfl

/-- C5: the legitimate falsy results survive every layer: loads of the
text null returns the null value, loads of false returns the boolean
false, and loads of 0 returns the number zero, none of them confused with
the no-result-yet sentinel. -/
theorem c5_falsy_results_returned :
    loads (codes "null") = .ok PyVal.none
    ∧ loads (codes "false") = .ok (.bool false)
    ∧ loads (codes "0") = .ok (.num 0) :=
  ⟨rfl, rfl, rfl⟩

/-- C6 counterexample: on empty input the driver does not report an
incomplete-input parse error; the loop never assigns ret and reading it
raises UnboundLocalError. -/
theorem c6_empty_input_counterexample :
    loads [] = .error (.unboundLocalError "ret") :=
  rfl

/-- C6 amended: the driver strips whitespace, feeds the rest to one fresh
value machine and propagates the first rejection; when the input ends
while the last yield is still the sentinel it raises JSONParseError, as
on the unclosed array text or an unterminated string; whitespace-only or
empty input instead raises UnboundLocalError, and surrounding whitespace
around a value is stripped. -/
theorem c6_driver_amended :
    (∀ s : List Char, pyStrip s = [] → loads s = .error (.unboundLocalError "ret"))
    ∧ loads (codes "[1") = .error (.jsonParseError "Failed to parse JSON value")
    ∧ loads (codes "\"abc") = .error (.jsonParseError "Failed to parse JSON value")
    ∧ loads (codes "  1  ") = .ok (.num 1) := by
  refine ⟨?_, rfl, rfl, rfl⟩
  intro s h
  unfold loads
  rw [h]
  rfl

/-- C6 witness: the whitespace-only branch of the amended claim at a
concrete one-space input. -/
theorem c6_driver_amended_witness :
    loads (codes " ") = .error (.unboundLocalError "ret") :=
  c6_driver_amended.1 (codes " ") rfl

/-- C7: the value dispatcher.  An ASCII first character no alternative
accepts makes the value machine fail with the failed-to-parse error (the
restriction to code points below 128 keeps the statement inside the
domain where the digit model matches unicode.isdigit exactly); a digit
or minus makes the number machine the survivor; brace, bracket, quote,
n, f and t select the object, array, string and literal machines
respectively; and after dispatch every character is forwarded to the
survivor, whose outcome is returned as the value machine outcome. -/
theorem c7_dispatch :
    (∀ c : Char, c.toNat < 128 → ¬ firstCharAccepted c →
      valFeed .start c = .error (.jsonParseError "Failed to parse JSON value"))
    ∧ (∀ c : Char, pyIsDigit c = true ∨ c = '-' →
      ∃ s y, valFeed .start c = .ok (.running (.numM s), y))
    ∧ valFeed .start '\x7b' = .ok (.running (.objM (.keyFirst [] Option.none)), Option.none)
    ∧ valFeed .start '[' = .ok (.running (.arrM (.elemFirst [])), Option.none)
    ∧ valFeed .start '"' = .ok (.running (.strM (.body [])), Option.none)
    ∧ valFeed .start 'n' = .ok (.running (.litM (.matching ['u', 'l', 'l'] PyVal.none)), Option.none)
    ∧ valFeed .start 'f' = .ok (.running (.litM (.matching ['a', 'l', 's', 'e'] (.bool false))), Option.none)
    ∧ valFeed .start 't' = .ok (.running (.litM (.matching ['r', 'u', 'e'] (.bool true))), Option.none)
    ∧ (∀ (m : Machine) (c : Char),
      valFeed (.running m) c = (machFeed m c).map (fun p => (.running p.1, p.2))) := by
  refine ⟨?_, ?_, rfl, rfl, rfl, rfl, rfl, rfl, ?_⟩
  · intro c _ h
    simp only [firstCharAccepted, not_or] at h
    obtain ⟨h1, h2, h3, h4, h5, h6, h7, h8⟩ := h
    simp [valFeed, valStart, tryFirst, jpeOr, tryNum, tryObj, tryArr, tryStr, tryLit,
      numFeed, numIntStart, objOpen, arrOpen, strFeed, litFeed, Except.map,
      nullData, falseData, trueData, h1, h2, h3, h4, h5, h6, h7, h8]
  · intro c h
    rcases h with hd | hm
    · by_cases h0 : c = '0'
      · subst h0
        exact ⟨_, _, rfl⟩
      · have hm : c ≠ '-' := by
          intro e
          rw [e] at hd
          exact absurd hd (by decide)
        refine ⟨.intLoop [c], some (.num (buildNumber [c])), ?_⟩
        simp [valFeed, valStart, tryFirst, jpeOr, tryNum, numFeed, numIntStart,
          Except.map, hd, h0, hm]
    · subst hm
      exact ⟨_, _, rfl⟩
  · intro m c
    cases h : machFeed m c with
    | ok p => simp [valFeed, h, Except.map]
    | error e => simp [valFeed, h, Except.map]

/-- C7 witness: no alternative accepts the character x, so the dispatcher
fails with the failed-to-parse error there. -/
theorem c7_dispatch_witness :
    valFeed .start 'x' = .error (.jsonParseError "Failed to parse JSON value") :=
  c7_dispatch.1 'x' (by decide) (by simp [firstCharAccepted]; decide)

/-- C8: the leading-zero rule: after a bare zero integer part every digit
is rejected with the unexpected-digit error, and loads rejects both the
text 01 and the text 00 with that parse error. -/
theorem c8_leading_zero :
    (∀ (ds : List Char) (c : Char), pyIsDigit c = true →
      numFeed (.afterZero ds) c =
        .error (.jsonParseError ("Unexpected digit: " ++ c.toString)))
    ∧ loads (codes "01") = .error (.jsonParseError "Unexpected digit: 1")
    ∧ loads (codes "00") = .error (.jsonParseError "Unexpected digit: 0") := by
  refine ⟨?_, rfl, rfl⟩
  intro ds c h
  simp [numFeed, numAfterInt, h]

/-- C8 witness: the digit 1 right after a bare zero integer part is
rejected. -/
theorem c8_leading_zero_witness :
    numFeed (.afterZero ['0']) '1' = .error (.jsonParseError "Unexpected digit: 1") :=
  c8_leading_zero.1 ['0'] '1' rfl

/-- C9 counterexample: the four characters after backslash u are not all
hexadecimal digits in the text quote backslash u plus 1 2 3 quote, yet
decoding succeeds: the builtin int with base 16 accepts the sign, so the
machine appends code point 291 instead of rejecting. -/
theorem c9_signed_hex_counterexample :
    loads (codes "\"\\u+123\"") = .ok (.str [291]) :=
  rfl

/-- C9 amended: after backslash u the string machine consumes exactly
four characters, each of the first three unconditionally; when the four
form a valid Python base-16 integer literal in unichr range the denoted
code point is appended and parsing returns to the string body, as for the
bullet code point 8226; when they do not, as for ZZZZ, the machine fails
with ValueError. -/
theorem c9_unicode_escape_amended :
    (∀ (v : List Nat) (hs : List Char) (c : Char), hs.length < 3 →
      strFeed (.unicode v hs) c = .ok (.unicode v (hs ++ [c]), Option.none))
    ∧ loads (codes "\"\\u2022\"") = .ok (.str [8226])
    ∧ loads (codes "\"\\uZZZZ\"") = .error .valueError := by
  refine ⟨?_, rfl, rfl⟩
  intro v hs c hl
  have h4 : (hs ++ [c]).length < 4 := by
    simp only [List.length_append, List.length_cons, List.length_nil]
    omega
  simp [strFeed, h4]
  omega

/-- C9 witness: the first hex-escape character is consumed while staying
in the unicode-escape state. -/
theorem c9_unicode_escape_amended_witness :
    strFeed (.unicode [] []) 'f' = .ok (.unicode [] ['f'], Option.none) :=
  c9_unicode_escape_amended.1 [] [] 'f' (by decide)

/-- C10 counterexample: the text 1e2x is the complete JSON value 1e2
followed by the non-whitespace garbage character x, yet loads returns
the number 100: the exponent digit loop of the number machine exits on
the non-digit x and falls into its final yield (src/jsonfsm.py:191),
consuming that character and yielding the finished value. -/
theorem c10_number_swallows_garbage_counterexample :
    loads (codes "1e2x") = .ok (.num 100) :=
  rfl

/-- C10 amended: once the surviving machine has reached its final-yield
state, feeding any further character raises StopIteration, so a
completed string, array, object or literal followed by trailing garbage
never decodes (concretely each of a closed string, a closed array and
the literal true followed by space and x fails with StopIteration) -
except that a bare top-level number ending in exponent digits reaches
its final yield only on the first following character: that single
non-digit character (in the ASCII domain of the digit model) is
consumed while the number is yielded as final, so loads returns the
number and ignores the one garbage character; a second garbage
character again fails with StopIteration. -/
theorem c10_trailing_garbage_amended :
    (∀ c : Char, valFeed (.running (.numM .finished)) c = .error .stopIteration)
    ∧ (∀ c : Char, valFeed (.running (.strM .finished)) c = .error .stopIteration)
    ∧ (∀ c : Char, valFeed (.running (.arrM .finished)) c = .error .stopIteration)
    ∧ (∀ c : Char, valFeed (.running (.objM .finished)) c = .error .stopIteration)
    ∧ (∀ c : Char, valFeed (.running (.litM .finished)) c = .error .stopIteration)
    ∧ loads (codes "\"a\" x") = .error .stopIteration
    ∧ loads (codes "[1] x") = .error .stopIteration
    ∧ loads (codes "true x") = .error .stopIteration
    ∧ (∀ (ds : List Char) (c : Char), c.toNat < 128 → pyIsDigit c = false →
        numFeed (.expLoop ds) c = .ok (.finished, some (buildNumber ds)))
    ∧ loads (codes "1e2xy") = .error .stopIteration := by
  refine ⟨fun _ => rfl, fun _ => rfl, fun _ => rfl, fun _ => rfl, fun _ => rfl,
    rfl, rfl, rfl, ?_, rfl⟩
  intro ds c _ h
  simp [numFeed, h]

/-- C10 witness: the exponent-loop state on the digits of 1e2 fed the
non-digit x finalizes the number instead of failing. -/
theorem c10_trailing_garbage_amended_witness :
    numFeed (.expLoop ['1', 'e', '2']) 'x' = .ok (.finished, some 100) :=
  c10_trailing_garbage_amended.2.2.2.2.2.2.2.2.1 ['1', 'e', '2'] 'x' (by decide) rfl

end Jsonfsm
